import Mathlib

/-!
Verification of the analysis-and-classification pipeline of the Telegram
misinformation bot in `main.py` (repository `gini-2.0`).

The Python source is shallowly embedded below.  Machine-level remarks:

* The source file is stored with a double-encoded (mojibake) character
  set: every emoji / Devanagari literal in `main.py` is, at the Python
  level, a sequence of Latin/symbol codepoints (for example the chat
  error marker on line 288 is the six-character sequence
  U+201A U+00F6 U+2020 U+00D4 U+220F U+00E8).  The embedding reproduces
  those literals codepoint for codepoint, via `\u` escapes.

* The model's JSON reply is represented by `AnalysisJson`, a record of
  optional fields mirroring a JSON object in which any key may be
  missing; Python's `dict.get(k, default)` becomes `Option.getD`.

* External effects (the Gemini SDK, JSON decoding, the data file) are
  represented by explicit parameters: a `GatewayOutcome` value stands
  for the outcome of one `generate_content` call, a
  `String → Option AnalysisJson` function for `json.loads` on the
  analysis path, a `String → Option Json` function for `json.load` on
  the storage path, and a `FileState` for the state of
  `user_data.json`.

* The in-memory store `bot_user_data` is modelled extensionally as a
  total function from user id to `UserRecord`; an absent key is the
  record with empty history and no complaint, which is exactly how
  every read site in the program (`.get` with defaults, `setdefault`)
  observes an absent key.

* Python's `round` (used for the confidence bar) is banker's rounding;
  for the integer confidences the program handles, `round(c / 10)` is
  `pyRound10 c` below.
-/

namespace GiniBot

/-! ### Configuration constants (main.py lines 19-22) -/

def CONFIDENCE_THRESHOLD_FAKE : Int := 65

def CONFIDENCE_THRESHOLD_REAL : Int := 60

def CHAT_HISTORY_LIMIT : Nat := 6

/-! ### Mojibake string literals, copied codepoint for codepoint from main.py -/

/-- Line 288 (and the prefix of the chat failure string, line 140): the
fixed error marker checked by `handle_chat`. -/
def error_marker : String := "\u201A\u00F6\u2020\u00D4\u220F\u00E8"

/-- Line 94: `why_card_hi` of the empty-content verdict. -/
def hindi_no_content : String := "\u2021\u00A7\u00B5\u2021\u00A7\u00F8\u2021\u00A7\u2202\u2021\u2022\u00E7\u2021\u00A7\u2264\u2021\u2022\u00E1\u2021\u00A7\u2211\u2021\u00A7\u00A3 \u2021\u00A7\u00EF\u2021\u2022\u00E1 \u2021\u00A7\u2264\u2021\u00A7\u00F8\u2021\u00A7\u00E8 \u2021\u00A7\u00EF\u2021\u2022\u00E3\u2021\u00A7\u00E0 \u2021\u00A7\u220F\u2021\u00A7\u00E6\u2021\u00A7\u00C6\u2021\u00A7\u00F3\u2021\u2022\u00E7\u2021\u00A7\u221E\u2021\u2022\u00C4 \u2021\u00A7\u00AE\u2021\u00A7\u03C0\u2021\u2022\u00C4\u2021\u00A7\u00C7\u2021\u2022\u00A7"

/-- Line 115: `why_card_hi` of the AI-error fallback verdict. -/
def hindi_ai_error : String := "\u2021\u00A7\u00E8\u2021\u00A7\u00DC\u2021\u00A7\u00E0 \u2021\u00A7\u00A7\u2021\u2022\u00E7\u2021\u00A7\u221E\u2021\u2022\u00C5\u2021\u00A7\u00FC\u2021\u00A7\u00F8 \u2021\u00A7\u00EF\u2021\u2022\u00E1 \u2021\u00A7\u00EF\u2021\u00A7\u00E6\u2021\u00A7\u221E\u2021\u00A7\u00A3 \u2021\u00A7\u00B5\u2021\u00A7\u00F8\u2021\u00A7\u2202\u2021\u2022\u00E7\u2021\u00A7\u2264\u2021\u2022\u00E1\u2021\u00A7\u2211\u2021\u00A7\u00A3 \u2021\u00A7\u00B5\u2021\u00A7\u00F8\u2021\u00A7\u00B4\u2021\u00A7\u2264 \u2021\u00A7\u03C0\u2021\u2022\u00C5\u2021\u00A7\u00DC\u2021\u2022\u00A7"

/-- Line 156: title prefix of a RED reply. -/
def red_title_icon : String := "\uF8FF\u00FC\u00F6\u00AE"

/-- Line 158: title prefix of a GREEN reply. -/
def green_title_icon : String := "\u201A\u00FA\u00D6"

/-- Line 162: one filled cell of the confidence bar. -/
def filled_cell : String := "\uF8FF\u00FC\u00FC\u00A9"

/-- Line 162: one empty cell of the confidence bar. -/
def empty_cell : String := "\u201A\u00A8\u00FA"

/-- Line 164: flag icons before `*Summary:*`. -/
def summary_icon : String := "\uF8FF\u00FC\u00E1\u00A8\uF8FF\u00FC\u00E1\u00DF"

/-- Line 164: flag icons before the Hindi summary heading. -/
def hindi_icon : String := "\uF8FF\u00FC\u00E1\u00C6\uF8FF\u00FC\u00E1\u2265"

/-- Line 164: the Devanagari word in the Hindi summary heading. -/
def hindi_summary_word : String := "\u2021\u00A7\u220F\u2021\u00A7\u00E6\u2021\u00A7\u221E\u2021\u00A7\u00E6\u2021\u00A7\u00C7\u2021\u00A7\u2202"

/-- Line 166: icon in the red-flags section heading. -/
def magnifier_icon : String := "\uF8FF\u00FC\u00EE\u00E9"

/-- Line 166: bullet prefix of each red-flag line. -/
def flag_bullet : String := "\u201A\u00C4\u00A2"

/-- Line 194: prefix of the generic analysis failure message. -/
def cross_icon : String := "\u201A\u00F9\u00E5"

/-! ### The model's JSON reply (a dict with possibly-missing keys) -/

/-- A JSON object as consumed by `get_result_color` /
`format_analysis_reply`: each field is `none` when the key is missing,
in which case the Python code supplies a default via `.get`. -/
structure AnalysisJson where
  result : Option String
  confidence : Option Int
  reason : Option String
  why_card_en : Option String
  why_card_hi : Option String
  red_flags : Option (List String)
  deriving DecidableEq

/-- A JSON object carrying exactly a `result` and a `confidence` key,
used to state claims about classification of (result, confidence)
pairs. -/
def mkJson (res : String) (conf : Int) : AnalysisJson :=
  { result := some res, confidence := some conf, reason := none,
    why_card_en := none, why_card_hi := none, red_flags := none }

/-! ### Classifier (main.py lines 144-148) -/

/-- `get_result_color` (lines 144-148): RED when result is FAKE with
confidence at least 65, GREEN when result is REAL with confidence at
least 60, YELLOW otherwise. -/
def get_result_color (j : AnalysisJson) : String :=
  let res := j.result.getD "UNSURE"
  let conf := j.confidence.getD 0
  if res = "FAKE" ∧ CONFIDENCE_THRESHOLD_FAKE ≤ conf then "RED"
  else if res = "REAL" ∧ CONFIDENCE_THRESHOLD_REAL ≤ conf then "GREEN"
  else "YELLOW"

/-! ### Reply formatter (main.py lines 151-167) -/

/-- Python's `round(c / 10)` for an integer `c`: round half to even.
For `c % 10 = 5` the quotient `c / 10` is the exact double `q + 0.5`,
which Python rounds to the even neighbour; every other residue is more
than the double representation error away from a half, so it rounds to
the nearest integer. -/
def pyRound10 (c : Int) : Int :=
  if c % 10 < 5 then c / 10
  else if 5 < c % 10 then c / 10 + 1
  else if (c / 10) % 2 = 0 then c / 10 else c / 10 + 1

/-- `s * n` for a Python string `s` and a nonnegative count `n`. -/
def strRepeat (s : String) (n : Nat) : String :=
  String.join (List.replicate n s)

/-- Lines 161-162: the 10-cell confidence bar.  As in Python,
a negative repeat count yields the empty string (`Int.toNat` clamps
at zero). -/
def confidence_bar (confidence : Int) : String :=
  strRepeat filled_cell (pyRound10 confidence).toNat
    ++ strRepeat empty_cell (10 - pyRound10 confidence).toNat

/-- Helper for `pyTitle`: the Boolean records whether the previous
character was alphabetic. -/
def pyTitleGo : Bool → List Char → List Char
  | _, [] => []
  | prevAlpha, c :: cs =>
    (if c.isAlpha then (if prevAlpha then c.toLower else c.toUpper) else c)
      :: pyTitleGo c.isAlpha cs

/-- Python's `str.title()` (restricted to ASCII letters, which is all
the program feeds it): the first letter of each alphabetic run is
uppercased, the rest lowercased, other characters unchanged. -/
def pyTitle (s : String) : String :=
  String.mk (pyTitleGo false s.data)

/-- One bullet line of the red-flags section (line 166). -/
def red_flag_line (flag : String) : String :=
  flag_bullet ++ " _" ++ flag ++ "_"

/-- `format_analysis_reply` (lines 151-167). -/
def format_analysis_reply (j : AnalysisJson) : String :=
  let color := get_result_color j
  let result := pyTitle (j.result.getD "UNSURE")
  let confidence := j.confidence.getD 0
  let title :=
    if color = "RED" then red_title_icon ++ " *Result: " ++ result ++ "* (Red Flag)"
    else if color = "GREEN" then green_title_icon ++ " *Result: " ++ result ++ "* (Green Flag)"
    else error_marker ++ " *Result: " ++ result ++ "* (Yellow Flag)"
  let reply := title ++ "\n\n*Confidence:* " ++ confidence_bar confidence
    ++ " (" ++ toString confidence ++ "%)\n*Reason:* " ++ j.reason.getD "N/A" ++ "\n\n"
  let reply := reply ++ summary_icon ++ " *Summary:*\n> " ++ j.why_card_en.getD "N/A"
    ++ "\n\n" ++ hindi_icon ++ " *" ++ hindi_summary_word ++ ":*\n> "
    ++ j.why_card_hi.getD "N/A" ++ "\n"
  match j.red_flags with
  | some (f :: fs) =>
      reply ++ "\n*" ++ magnifier_icon ++ " Textual Red Flags:*\n"
        ++ String.intercalate "\n" ((f :: fs).map red_flag_line)
  | _ => reply

/-! ### Model gateway (main.py lines 90-115) -/

/-- The outcome of one `model.generate_content` call, as seen by the
`try` block of `call_gemini_for_structured_analysis`: the SDK raised
(network or other transport error), the response was safety-blocked
(`resp.parts` empty, turned into a `ValueError`), or a raw text came
back. -/
inductive GatewayOutcome where
  | netError : GatewayOutcome
  | blocked : GatewayOutcome
  | response : String → GatewayOutcome
  deriving DecidableEq

/-- Lines 93-95: the verdict returned for empty content, before any
gateway call. -/
def no_content_json : AnalysisJson :=
  { result := some "UNSURE", confidence := some 0,
    reason := some "No content provided.",
    why_card_en := some "No content to analyze.",
    why_card_hi := some hindi_no_content, red_flags := some [] }

/-- Lines 113-115: the fallback verdict returned from the `except`
block.  Note the trailing period in the reason string. -/
def ai_error_json : AnalysisJson :=
  { result := some "UNSURE", confidence := some 40,
    reason := some "AI error occurred.",
    why_card_en := some "Could not analyze due to an AI error.",
    why_card_hi := some hindi_ai_error, red_flags := some [] }

/-- `call_gemini_for_structured_analysis` (lines 90-115).  `jsonParse`
stands for `json.loads` restricted to objects of the analysis shape
(`none` models a raised `JSONDecodeError`); `outcome` is the result of
the one SDK call inside the `try`.  Every failure path lands in the
`except` clause and produces `ai_error_json`; the function is total,
so no exception ever reaches the caller. -/
def call_gemini_for_structured_analysis (query : String) (hasImg : Bool)
    (jsonParse : String → Option AnalysisJson) (outcome : GatewayOutcome) :
    AnalysisJson :=
  if query = "" ∧ hasImg = false then no_content_json
  else
    match outcome with
    | GatewayOutcome.netError => ai_error_json
    | GatewayOutcome.blocked => ai_error_json
    | GatewayOutcome.response t =>
      match jsonParse t with
      | some j => j
      | none => ai_error_json

/-! ### Persistent store (main.py lines 43-56, in-memory shape) -/

/-- One element of a `history` list:
`\x7b"role": ..., "parts": [...]\x7d`. -/
structure ChatTurn where
  role : String
  parts : List String
  deriving DecidableEq

/-- One value of `bot_user_data`: the rolling chat history and the last
RED complaint, each key optional in Python and read through defaults. -/
structure UserRecord where
  history : List ChatTurn
  last_complaint : Option String
  deriving DecidableEq

/-- The in-memory store, extensionally: user id to record, an absent
key reading as the empty record. -/
def Store : Type := String → UserRecord

def emptyRecord : UserRecord := { history := [], last_complaint := none }

def emptyStore : Store := fun _ => emptyRecord

/-- Point update of the store (dict item assignment / `setdefault`). -/
def updateStore (store : Store) (uid : String) (r : UserRecord) : Store :=
  fun u => if u = uid then r else store u

/-! ### Analysis orchestrator (main.py lines 179-194) -/

/-- Line 186: the complaint text.  `analysis_json.get('reason')` has no
default, so a missing key renders as Python's `None`. -/
def complaint_text (content : String) (j : AnalysisJson) : String :=
  "Content: " ++ content ++ "\n\nAI Analysis: " ++ j.reason.getD "None"

/-- Line 189: call-to-action appended to a RED reply. -/
def red_action_line : String := "\n\n*Action:* Use `/complaint` for report text."

/-- Line 194: the generic failure message of the `except` block. -/
def analysis_error_reply : String := cross_icon ++ " Error during analysis."

/-- `run_analysis` (lines 179-194), returning the new store and the
final text of the edited message.  `formatRaises` injects the only
exception the `try` block can raise before any store write: a type
error while formatting a decoded JSON object whose fields have
unexpected types (for example `float` applied to a non-numeric
confidence).  Such an exception is caught on line 192 after touching
no state.  (Failures of the Telegram send calls themselves are outside
the analysis pipeline and not modelled.) -/
def run_analysis (store : Store) (uid content : String) (hasImg : Bool)
    (jsonParse : String → Option AnalysisJson) (outcome : GatewayOutcome)
    (formatRaises : Bool) : Store × String :=
  if formatRaises then (store, analysis_error_reply)
  else if get_result_color
      (call_gemini_for_structured_analysis content hasImg jsonParse outcome) = "RED" then
    (updateStore store uid
      { store uid with
        last_complaint := some (complaint_text content
          (call_gemini_for_structured_analysis content hasImg jsonParse outcome)) },
     format_analysis_reply
       (call_gemini_for_structured_analysis content hasImg jsonParse outcome)
       ++ red_action_line)
  else
    (store,
     format_analysis_reply
       (call_gemini_for_structured_analysis content hasImg jsonParse outcome))

/-! ### /search command (main.py lines 212-219) -/

/-- The characters after the first space, when a space occurs. -/
def afterFirstSpace : List Char → Option (List Char)
  | [] => none
  | c :: cs => if c = ' ' then some cs else afterFirstSpace cs

/-- `message.text.split(' ', 1)[1]` with the `IndexError` fallback of
lines 216-219: the text after the first space, or `""` when there is
no space (the `except IndexError` branch passes `content=""`). -/
def search_content (text : String) : String :=
  match afterFirstSpace text.data with
  | some rest => String.mk rest
  | none => ""

/-- `search_command` (lines 212-219): run the analysis on the text
after the command, with no image. -/
def search_command (store : Store) (uid text : String)
    (jsonParse : String → Option AnalysisJson) (outcome : GatewayOutcome)
    (formatRaises : Bool) : Store × String :=
  run_analysis store uid (search_content text) false jsonParse outcome formatRaises

/-! ### Conversation session manager (main.py lines 279-295) -/

/-- Python's `needle in hay` on lists of characters. -/
def listContainsSub (needle : List Char) : List Char → Bool
  | [] => needle.isEmpty
  | c :: cs => needle.isPrefixOf (c :: cs) || listContainsSub needle cs

/-- Python's `needle in hay` on strings. -/
def strContains (hay needle : String) : Bool :=
  listContainsSub needle.data hay.data

/-- `l[-n:]` in Python: the last `n` elements. -/
def lastN (n : Nat) (l : List α) : List α :=
  l.drop (l.length - n)

/-- One `handle_chat` turn (lines 279-295) given the text of the model
response (either `resp.text` or the fixed chat failure string).  When
the response contains the error marker nothing is written; otherwise
the user/model pair is appended and the history truncated to the last
`CHAT_HISTORY_LIMIT` entries.  (The `bot_user_data[uid] = ...` insert
for a brand-new user writes the record that an absent key already
reads as, so it is invisible in the extensional store.) -/
def handle_chat_step (store : Store) (uid text response : String) : Store :=
  let history := (store uid).history
  if strContains response error_marker then store
  else
    updateStore store uid
      { store uid with
        history := lastN CHAT_HISTORY_LIMIT
          (history ++ [{ role := "user", parts := [text] },
                       { role := "model", parts := [response] }]) }

/-- A whole chat session: fold `handle_chat_step` over a list of
(user text, model response) pairs. -/
def run_chats (uid : String) : Store → List (String × String) → Store
  | store, [] => store
  | store, (t, r) :: rest => run_chats uid (handle_chat_step store uid t r) rest

/-- The chronological list of history entries produced by the
successful turns of a session. -/
def success_entries (turns : List (String × String)) : List ChatTurn :=
  (turns.filter fun p => !(strContains p.2 error_marker)).flatMap
    fun p => [{ role := "user", parts := [p.1] },
              { role := "model", parts := [p.2] }]

/-! ### Startup load of the store file (main.py lines 43-48) -/

/-- The state of `user_data.json` as seen by `open`. -/
inductive FileState where
  | absent : FileState
  | unreadable : FileState
  | contents : String → FileState
  deriving DecidableEq

/-- An exception escaping `load_user_data` (its `except` clause names
only `FileNotFoundError` and `json.JSONDecodeError`). -/
inductive PyException where
  | permissionDenied : PyException
  deriving DecidableEq

/-- A decoded JSON document, as returned by `json.load`. -/
inductive Json where
  | null : Json
  | bool : Bool → Json
  | num : Int → Json
  | str : String → Json
  | arr : List Json → Json
  | obj : List (String × Json) → Json

/-- `load_user_data` (lines 43-48).  `jsonLoad` stands for `json.load`
(`none` models a raised `JSONDecodeError`).  An absent file
(`FileNotFoundError`) and undecodable contents are caught and yield
the empty store; an unreadable file raises an `OSError` subclass that
is not in the except tuple and therefore propagates; a successfully
decoded document of any shape is returned as-is. -/
def load_user_data (jsonLoad : String → Option Json) :
    FileState → Except PyException Json
  | FileState.absent => Except.ok (Json.obj [])
  | FileState.unreadable => Except.error PyException.permissionDenied
  | FileState.contents s =>
    match jsonLoad s with
    | some d => Except.ok d
    | none => Except.ok (Json.obj [])

/-- Modelled from the spec: the round-half-up policy that §9 of the
specification selects for the confidence bar (`round(confidence/10)`
with halves rounded up), used to compare the specified policy with the
source's behaviour. -/
def spec_round_half_up_div10 (c : Int) : Int :=
  (c + 5) / 10

/-! ### Claim C1: the classifier -/

/-- C1: `get_result_color` is total and deterministic over
(result, confidence) pairs: it returns RED exactly when the result is
FAKE with confidence at least 65, GREEN exactly when the result is
REAL with confidence at least 60, YELLOW in every other case, with
both thresholds inclusive; in particular classify(FAKE,65)=RED,
classify(FAKE,64)=YELLOW, classify(REAL,60)=GREEN,
classify(REAL,59)=YELLOW, classify(UNSURE,100)=YELLOW. -/
theorem classify_total_and_thresholds (res : String) (conf : Int) :
    (get_result_color (mkJson res conf) = "RED"
      ∨ get_result_color (mkJson res conf) = "GREEN"
      ∨ get_result_color (mkJson res conf) = "YELLOW")
    ∧ (get_result_color (mkJson res conf) = "RED" ↔ res = "FAKE" ∧ 65 ≤ conf)
    ∧ (get_result_color (mkJson res conf) = "GREEN" ↔ res = "REAL" ∧ 60 ≤ conf)
    ∧ (get_result_color (mkJson res conf) = "YELLOW"
        ↔ ¬(res = "FAKE" ∧ 65 ≤ conf) ∧ ¬(res = "REAL" ∧ 60 ≤ conf))
    ∧ get_result_color (mkJson "FAKE" 65) = "RED"
    ∧ get_result_color (mkJson "FAKE" 64) = "YELLOW"
    ∧ get_result_color (mkJson "REAL" 60) = "GREEN"
    ∧ get_result_color (mkJson "REAL" 59) = "YELLOW"
    ∧ get_result_color (mkJson "UNSURE" 100) = "YELLOW" := by
  refine ⟨?_, ?_, ?_, ?_, by decide, by decide, by decide, by decide, by decide⟩ <;>
    · simp only [get_result_color, mkJson, Option.getD,
        CONFIDENCE_THRESHOLD_FAKE, CONFIDENCE_THRESHOLD_REAL]
      split_ifs with h1 h2 <;> simp_all

/-! ### Claim C2: the confidence bar -/

/-- C2 counterexample: at confidence 25 the source's bar has 2 filled
cells (Python's `round` is half-to-even, and `round(2.5) = 2`), not
the 3 cells that the claimed round-half-up policy requires. -/
theorem confidence_bar_25_not_half_up :
    confidence_bar 25 = strRepeat filled_cell 2 ++ strRepeat empty_cell 8
    ∧ spec_round_half_up_div10 25 = 3
    ∧ pyRound10 25 = 2
    ∧ pyRound10 25 ≠ spec_round_half_up_div10 25 := by decide

/-- C2 amended: for every verdict with 0 ≤ confidence ≤ 100 the bar
consists of exactly 10 cells, `filled = round(confidence/10)` of them
filled and `10 - filled` empty, where `round` is Python's
round-half-to-even (so confidence 25 gives filled = 2): `filled` is
within half a cell of confidence/10 and an exact half rounds to the
even neighbour. -/
theorem confidence_bar_ten_cells (c : Int) (h0 : 0 ≤ c) (h1 : c ≤ 100) :
    ∃ f : Nat, (f : Int) = pyRound10 c ∧ f ≤ 10
      ∧ confidence_bar c = strRepeat filled_cell f ++ strRepeat empty_cell (10 - f)
      ∧ f + (10 - f) = 10
      ∧ -5 ≤ 10 * (f : Int) - c ∧ 10 * (f : Int) - c ≤ 5
      ∧ (10 * (f : Int) - c = 5 ∨ 10 * (f : Int) - c = -5 → (f : Int) % 2 = 0) := by
  have hb : 0 ≤ pyRound10 c ∧ pyRound10 c ≤ 10
      ∧ -5 ≤ 10 * pyRound10 c - c ∧ 10 * pyRound10 c - c ≤ 5
      ∧ ((10 * pyRound10 c - c = 5 ∨ 10 * pyRound10 c - c = -5) → pyRound10 c % 2 = 0) := by
    unfold pyRound10
    split_ifs <;> omega
  obtain ⟨hb0, hb1, hb2, hb3, hb4⟩ := hb
  refine ⟨(pyRound10 c).toNat, by omega, by omega, ?_, by omega, by omega, by omega, by omega⟩
  have h2 : ((10 : Int) - pyRound10 c).toNat = 10 - (pyRound10 c).toNat := by omega
  unfold confidence_bar
  rw [h2]

/-- C2 witness: the amended statement instantiated at confidence 25. -/
theorem confidence_bar_ten_cells_witness :
    (0 : Int) ≤ 25 ∧ (25 : Int) ≤ 100
    ∧ (∃ f : Nat, (f : Int) = pyRound10 25 ∧ f ≤ 10
        ∧ confidence_bar 25 = strRepeat filled_cell f ++ strRepeat empty_cell (10 - f)
        ∧ f + (10 - f) = 10
        ∧ -5 ≤ 10 * (f : Int) - 25 ∧ 10 * (f : Int) - 25 ≤ 5
        ∧ (10 * (f : Int) - 25 = 5 ∨ 10 * (f : Int) - 25 = -5 → (f : Int) % 2 = 0)) :=
  ⟨by decide, by decide, confidence_bar_ten_cells 25 (by decide) (by decide)⟩

/-! ### Claim C3: gateway failures are absorbed into the fallback verdict -/

/-- C3 counterexample: the fallback verdict's reason string carries a
trailing period, `"AI error occurred."`, so it is not the claimed
string `"AI error occurred"`. -/
theorem fallback_reason_has_trailing_period :
    (call_gemini_for_structured_analysis "hello" false (fun _ => none)
        GatewayOutcome.netError).reason = some "AI error occurred."
    ∧ (call_gemini_for_structured_analysis "hello" false (fun _ => none)
        GatewayOutcome.netError).reason ≠ some "AI error occurred" := by decide

/-- C3 amended: for every input with non-empty content, when the
gateway call fails in any way (network error, safety block, or model
output that is not valid JSON), `call_gemini_for_structured_analysis`
returns the fallback verdict with result UNSURE, confidence 40,
reason "AI error occurred." (trailing period), the bilingual fallback
texts and no red flags; the function is total, so no exception reaches
its caller. -/
theorem fallback_on_gateway_failure (query : String) (hasImg : Bool)
    (jsonParse : String → Option AnalysisJson) (outcome : GatewayOutcome)
    (hContent : ¬(query = "" ∧ hasImg = false))
    (hFail : outcome = GatewayOutcome.netError ∨ outcome = GatewayOutcome.blocked
      ∨ ∃ t, outcome = GatewayOutcome.response t ∧ jsonParse t = none) :
    call_gemini_for_structured_analysis query hasImg jsonParse outcome
      = { result := some "UNSURE", confidence := some 40,
          reason := some "AI error occurred.",
          why_card_en := some "Could not analyze due to an AI error.",
          why_card_hi := some hindi_ai_error, red_flags := some [] } := by
  have : call_gemini_for_structured_analysis query hasImg jsonParse outcome
      = ai_error_json := by
    unfold call_gemini_for_structured_analysis
    rw [if_neg hContent]
    rcases hFail with h | h | ⟨t, ht, hp⟩
    · rw [h]
    · rw [h]
    · rw [ht]; simp [hp]
  rw [this]; rfl

/-- C3 witness: the amended statement instantiated at a concrete
failing network call. -/
theorem fallback_on_gateway_failure_witness :
    ¬(("hello" : String) = "" ∧ false = false)
    ∧ call_gemini_for_structured_analysis "hello" false (fun _ => none)
        GatewayOutcome.netError
      = { result := some "UNSURE", confidence := some 40,
          reason := some "AI error occurred.",
          why_card_en := some "Could not analyze due to an AI error.",
          why_card_hi := some hindi_ai_error, red_flags := some [] } :=
  ⟨by decide, fallback_on_gateway_failure "hello" false (fun _ => none)
    GatewayOutcome.netError (by decide) (Or.inl rfl)⟩

/-! ### Claim C6: empty content short-circuits -/

/-- C6: given empty text and no image the analysis entry point returns
the verdict with result UNSURE, confidence 0 and reason
"No content provided.", and the result does not depend on the gateway
outcome — the remote model is never invoked for empty content. -/
theorem empty_content_short_circuits (jsonParse : String → Option AnalysisJson)
    (outcome : GatewayOutcome) :
    call_gemini_for_structured_analysis "" false jsonParse outcome = no_content_json
    ∧ no_content_json.result = some "UNSURE"
    ∧ no_content_json.confidence = some 0
    ∧ no_content_json.reason = some "No content provided." :=
  ⟨by unfold call_gemini_for_structured_analysis; rw [if_pos ⟨rfl, rfl⟩],
   rfl, rfl, rfl⟩

/-! ### Claim C4: the rolling chat history -/

lemma length_lastN (n : Nat) (l : List α) : (lastN n l).length ≤ n := by
  simp only [lastN, List.length_drop]
  omega

lemma lastN_append_lastN (n : Nat) (xs ys : List α) :
    lastN n (lastN n xs ++ ys) = lastN n (xs ++ ys) := by
  unfold lastN
  rw [List.length_append, List.length_append, List.length_drop,
      List.drop_append_eq_append_drop, List.drop_append_eq_append_drop,
      List.drop_drop, List.length_drop]
  congr 1
  · congr 1
    omega
  · congr 1
    omega

lemma handle_chat_step_marker (store : Store) (uid text response : String)
    (h : strContains response error_marker = true) :
    handle_chat_step store uid text response = store := by
  simp [handle_chat_step, h]

lemma handle_chat_step_success (store : Store) (uid text response : String)
    (h : strContains response error_marker = false) :
    (handle_chat_step store uid text response) uid
      = { store uid with
          history := lastN CHAT_HISTORY_LIMIT
            ((store uid).history ++ [{ role := "user", parts := [text] },
                                     { role := "model", parts := [response] }]) } := by
  simp [handle_chat_step, h, updateStore]

lemma run_chats_history_invariant (uid : String) (turns : List (String × String)) :
    ∀ (store : Store) (acc : List ChatTurn),
      (store uid).history = lastN CHAT_HISTORY_LIMIT acc →
      ((run_chats uid store turns) uid).history
        = lastN CHAT_HISTORY_LIMIT (acc ++ success_entries turns) := by
  induction turns with
  | nil =>
    intro store acc h
    simpa [run_chats, success_entries] using h
  | cons p rest ih =>
    intro store acc h
    obtain ⟨t, r⟩ := p
    by_cases hm : strContains r error_marker
    · rw [run_chats, handle_chat_step_marker store uid t r hm]
      have he : success_entries ((t, r) :: rest) = success_entries rest := by
        simp [success_entries, hm]
      rw [he]
      exact ih store acc h
    · rw [run_chats]
      have hstep : ((handle_chat_step store uid t r) uid).history
          = lastN CHAT_HISTORY_LIMIT
              (acc ++ [{ role := "user", parts := [t] },
                       { role := "model", parts := [r] }]) := by
        rw [handle_chat_step_success store uid t r (by simpa using hm)]
        simp only [h]
        exact lastN_append_lastN _ _ _
      have he : success_entries ((t, r) :: rest)
          = [{ role := "user", parts := [t] },
             { role := "model", parts := [r] }] ++ success_entries rest := by
        simp [success_entries, hm]
      rw [he, ← List.append_assoc]
      exact ih (handle_chat_step store uid t r) _ hstep

/-- C4: for every user and every sequence of chat turns starting from
the empty store, the user's history after the session is exactly the
last `CHAT_HISTORY_LIMIT = 6` of the history entries produced by the
successful turns, in chronological order, and in particular its length
is at most 6 (each successful turn appends its user/model pair and the
list is truncated to the last 6 entries). -/
theorem chat_history_bounded_and_chronological (uid : String)
    (turns : List (String × String)) :
    ((run_chats uid emptyStore turns) uid).history
      = lastN CHAT_HISTORY_LIMIT (success_entries turns)
    ∧ ((run_chats uid emptyStore turns) uid).history.length ≤ CHAT_HISTORY_LIMIT := by
  have h := run_chats_history_invariant uid turns emptyStore []
    (by simp [emptyStore, emptyRecord, lastN])
  simp only [List.nil_append] at h
  exact ⟨h, h ▸ length_lastN _ _⟩

/-! ### Claim C5: successive RED analyses overwrite the complaint -/

/-- C5: two successive RED-classified analyses for the same user leave
only the second complaint retrievable: the first analysis stores its
complaint text, and the second overwrites it with its own content and
reason (never appends). -/
theorem red_complaint_overwritten (store : Store) (uid t1 t2 : String)
    (i1 i2 : Bool) (p1 p2 : String → Option AnalysisJson)
    (o1 o2 : GatewayOutcome)
    (h1 : get_result_color (call_gemini_for_structured_analysis t1 i1 p1 o1) = "RED")
    (h2 : get_result_color (call_gemini_for_structured_analysis t2 i2 p2 o2) = "RED") :
    ((run_analysis store uid t1 i1 p1 o1 false).1 uid).last_complaint
      = some (complaint_text t1 (call_gemini_for_structured_analysis t1 i1 p1 o1))
    ∧ ((run_analysis (run_analysis store uid t1 i1 p1 o1 false).1
          uid t2 i2 p2 o2 false).1 uid).last_complaint
      = some (complaint_text t2 (call_gemini_for_structured_analysis t2 i2 p2 o2)) := by
  constructor <;> simp [run_analysis, h1, h2, updateStore]

/-- C5 witness: two concrete RED analyses for user "7". -/
theorem red_complaint_overwritten_witness :
    get_result_color (call_gemini_for_structured_analysis "first scam" false
        (fun _ => some (mkJson "FAKE" 80)) (GatewayOutcome.response "j1")) = "RED"
    ∧ get_result_color (call_gemini_for_structured_analysis "second scam" false
        (fun _ => some (mkJson "FAKE" 90)) (GatewayOutcome.response "j2")) = "RED"
    ∧ ((run_analysis (run_analysis emptyStore "7" "first scam" false
          (fun _ => some (mkJson "FAKE" 80)) (GatewayOutcome.response "j1") false).1
          "7" "second scam" false
          (fun _ => some (mkJson "FAKE" 90)) (GatewayOutcome.response "j2") false).1
        "7").last_complaint
      = some (complaint_text "second scam"
          (call_gemini_for_structured_analysis "second scam" false
            (fun _ => some (mkJson "FAKE" 90)) (GatewayOutcome.response "j2"))) :=
  ⟨by decide, by decide,
   (red_complaint_overwritten emptyStore "7" "first scam" "second scam" false false
      (fun _ => some (mkJson "FAKE" 80)) (fun _ => some (mkJson "FAKE" 90))
      (GatewayOutcome.response "j1") (GatewayOutcome.response "j2")
      (by decide) (by decide)).2⟩

/-! ### Claim C7: the store is written only on RED -/

/-- C7: the store is modified only when the classification is RED — a
non-RED analysis, or one whose formatting step raises (the FAILED
path), leaves the whole store unchanged; an analysis never touches any
other user's record; `last_complaint` is never cleared by an analysis
(if it is `none` afterwards it was `none` before); and a chat turn
never changes any user's `last_complaint`. -/
theorem store_written_only_on_red (store : Store) (uid content : String)
    (hasImg : Bool) (jsonParse : String → Option AnalysisJson)
    (outcome : GatewayOutcome) (formatRaises : Bool) :
    (get_result_color (call_gemini_for_structured_analysis content hasImg jsonParse outcome) ≠ "RED"
        ∨ formatRaises = true →
      (run_analysis store uid content hasImg jsonParse outcome formatRaises).1 = store)
    ∧ (∀ u, u ≠ uid →
        (run_analysis store uid content hasImg jsonParse outcome formatRaises).1 u = store u)
    ∧ (∀ u,
        ((run_analysis store uid content hasImg jsonParse outcome formatRaises).1 u).last_complaint
            = none →
        (store u).last_complaint = none)
    ∧ (∀ text resp u,
        ((handle_chat_step store uid text resp) u).last_complaint
          = (store u).last_complaint) := by
  refine ⟨?_, ?_, ?_, ?_⟩
  · rintro (h | h)
    · cases formatRaises <;> simp [run_analysis, h]
    · simp [run_analysis, h]
  · intro u hu
    unfold run_analysis
    split_ifs <;> simp [updateStore, hu]
  · intro u
    unfold run_analysis
    split_ifs <;> simp only [updateStore] <;> intro h
    · exact h
    · by_cases hcase : u = uid
      · rw [if_pos hcase] at h
        exact absurd h (by simp)
      · rwa [if_neg hcase] at h
    · exact h
  · intro text resp u
    unfold handle_chat_step
    split_ifs with h
    · rfl
    · unfold updateStore
      by_cases hcase : u = uid
      · rw [if_pos hcase, hcase]
      · rw [if_neg hcase]

/-- C7 witness: a concrete YELLOW analysis (gateway failure gives the
UNSURE/40 fallback) leaves the store untouched. -/
theorem store_written_only_on_red_witness :
    get_result_color (call_gemini_for_structured_analysis "x" false (fun _ => none)
        GatewayOutcome.netError) ≠ "RED"
    ∧ (run_analysis emptyStore "9" "x" false (fun _ => none)
        GatewayOutcome.netError false).1 = emptyStore :=
  ⟨by decide,
   (store_written_only_on_red emptyStore "9" "x" false (fun _ => none)
      GatewayOutcome.netError false).1 (Or.inl (by decide))⟩

/-! ### Claim C8: loading the persisted store -/

/-- C8 counterexample: an unreadable store file is not treated as an
empty store — the raised error is not in the caught exception tuple
(`FileNotFoundError`, `json.JSONDecodeError`) and propagates out of
`load_user_data` instead of yielding the empty mapping. -/
theorem load_unreadable_propagates :
    load_user_data (fun _ => none) FileState.unreadable
      = Except.error PyException.permissionDenied
    ∧ load_user_data (fun _ => none) FileState.unreadable
      ≠ Except.ok (Json.obj []) :=
  ⟨rfl, fun h => Except.noConfusion h⟩

/-- C8 amended: loading the persisted store from an absent file, or
from a file whose contents fail JSON decoding, yields the empty store
without raising; other read failures (such as an unreadable file)
propagate as exceptions, and a file that decodes to any JSON document
is returned as decoded. -/
theorem load_absent_or_malformed_empty (jsonLoad : String → Option Json)
    (s : String) (hbad : jsonLoad s = none) :
    load_user_data jsonLoad FileState.absent = Except.ok (Json.obj [])
    ∧ load_user_data jsonLoad (FileState.contents s) = Except.ok (Json.obj [])
    ∧ (∀ d, jsonLoad s = some d →
        load_user_data jsonLoad (FileState.contents s) = Except.ok d) := by
  refine ⟨rfl, ?_, ?_⟩
  · simp [load_user_data, hbad]
  · intro d hd
    rw [hbad] at hd
    exact absurd hd (by simp)

/-- C8 witness: the amended statement at a concrete undecodable file
body. -/
theorem load_absent_or_malformed_empty_witness :
    ((fun _ => none : String → Option Json) "not json" = none)
    ∧ load_user_data (fun _ => none) FileState.absent = Except.ok (Json.obj [])
    ∧ load_user_data (fun _ => none) (FileState.contents "not json")
      = Except.ok (Json.obj []) :=
  ⟨rfl,
   (load_absent_or_malformed_empty (fun _ => none) "not json" rfl).1,
   (load_absent_or_malformed_empty (fun _ => none) "not json" rfl).2.1⟩

/-! ### Claim C9: a chat turn is remembered iff no error marker -/

/-- C9: a chat turn is appended to the user's history if and only if
the model's response does not contain the fixed error marker: on
success the user/model pair is appended and the history truncated to
the last 6 entries (the complaint is untouched), while on failure the
store is left unchanged. -/
theorem chat_append_iff_no_marker (store : Store) (uid text resp : String) :
    (strContains resp error_marker = true →
      handle_chat_step store uid text resp = store)
    ∧ (strContains resp error_marker = false →
      handle_chat_step store uid text resp
        = updateStore store uid
            { history := lastN CHAT_HISTORY_LIMIT
                ((store uid).history ++ [{ role := "user", parts := [text] },
                                         { role := "model", parts := [resp] }]),
              last_complaint := (store uid).last_complaint }) := by
  constructor <;> intro h <;> simp [handle_chat_step, h, updateStore]

/-- C9 witness: a marker-free response is appended; the fixed chat
failure string (which contains the marker) is not. -/
theorem chat_append_iff_no_marker_witness :
    strContains "hello there" error_marker = false
    ∧ handle_chat_step emptyStore "5" "hi" "hello there"
        = updateStore emptyStore "5"
            { history := lastN CHAT_HISTORY_LIMIT
                ((emptyStore "5").history ++ [{ role := "user", parts := ["hi"] },
                                              { role := "model", parts := ["hello there"] }]),
              last_complaint := (emptyStore "5").last_complaint }
    ∧ strContains (error_marker ++ " The AI is currently unavailable.") error_marker = true
    ∧ handle_chat_step emptyStore "5" "hi"
        (error_marker ++ " The AI is currently unavailable.") = emptyStore :=
  ⟨by decide,
   (chat_append_iff_no_marker emptyStore "5" "hi" "hello there").2 (by decide),
   by decide,
   (chat_append_iff_no_marker emptyStore "5" "hi"
      (error_marker ++ " The AI is currently unavailable.")).1 (by decide)⟩

/-! ### Claim C10: /search with no argument -/

/-- C10: the /search command with no argument text is not rejected: it
runs the full analysis pipeline on empty content with no image, so the
user receives the formatted reply for the no-content verdict (UNSURE,
confidence 0, reason "No content provided.") and the store is
untouched, whatever the gateway would have answered. -/
theorem search_no_argument_analyzes_empty (store : Store) (uid : String)
    (jsonParse : String → Option AnalysisJson) (outcome : GatewayOutcome) :
    search_command store uid "/search" jsonParse outcome false
      = (store, format_analysis_reply no_content_json)
    ∧ search_content "/search" = "" := by
  have hsc : search_content "/search" = "" := by decide
  constructor
  · unfold search_command
    rw [hsc]
    unfold run_analysis
    have hcall : call_gemini_for_structured_analysis "" false jsonParse outcome
        = no_content_json := by
      unfold call_gemini_for_structured_analysis
      rw [if_pos ⟨rfl, rfl⟩]
    simp only [Bool.false_eq_true, if_false, hcall]
    rw [if_neg (by decide : ¬get_result_color no_content_json = "RED")]
  · exact hsc

end GiniBot
